import Mathlib

/-!
Verification of the kash-pages landing-page publishing tool.

Strings from the JavaScript source are embedded as lists of Unicode
codepoints (`JsStr`), so that character-class tests and case mapping are
plain arithmetic on `Nat`.  Timestamps are `Nat`; the document store is a
list of page records; route handlers are pure functions from a request
and a store to a response, a new store, a new audit log and a trace of
the components they invoked.
-/

namespace KP

/-- A JavaScript string, as its list of Unicode codepoints. -/
abbrev JsStr := List Nat

/-- Embed a Lean string literal as a codepoint list. -/
def str (s : String) : JsStr := s.data.map Char.toNat

/-- ASCII lowercasing of one codepoint, the case mapping relevant to the
slug and URL checks (models String.prototype.toLowerCase on the ASCII
range). -/
def lowerCp (c : Nat) : Nat := if 65 ≤ c ∧ c ≤ 90 then c + 32 else c

/-- JavaScript whitespace (the \s class and String.prototype.trim):
tab, LF, VT, FF, CR, space, NBSP, and the Unicode space separators. -/
def isJsWs (c : Nat) : Bool :=
  decide ((9 ≤ c ∧ c ≤ 13) ∨ c = 32 ∨ c = 160 ∨ c = 0x1680 ∨
    (0x2000 ≤ c ∧ c ≤ 0x200A) ∨ c = 0x2028 ∨ c = 0x2029 ∨
    c = 0x202F ∨ c = 0x205F ∨ c = 0x3000 ∨ c = 0xFEFF)

/-- The regex class \w : [A-Za-z0-9_]. -/
def isWordCp (c : Nat) : Bool :=
  decide ((65 ≤ c ∧ c ≤ 90) ∨ (97 ≤ c ∧ c ≤ 122) ∨ (48 ≤ c ∧ c ≤ 57) ∨ c = 95)

/-- The slug character class [a-z0-9-]. -/
def isSlugCp (c : Nat) : Bool :=
  decide ((97 ≤ c ∧ c ≤ 122) ∨ (48 ≤ c ∧ c ≤ 57) ∨ c = 45)

/-- Remove a trailing run of characters satisfying p (the right half of
trim, and of the replace of the trailing hyphen run). -/
def dropTrailing (p : Nat → Bool) : JsStr → JsStr
  | [] => []
  | c :: cs =>
    match dropTrailing p cs with
    | [] => if p c then [] else [c]
    | ds => c :: ds

/-- Remove a leading and a trailing run of characters satisfying p. -/
def jsTrimBy (p : Nat → Bool) (l : JsStr) : JsStr :=
  dropTrailing p (l.dropWhile p)

/-- String.prototype.trim. -/
def jsTrim (l : JsStr) : JsStr := jsTrimBy isJsWs l

/-- Replace every maximal nonempty run of characters satisfying p by the
single character rep (models replace(/p+/g, rep)). -/
def collapseRuns (p : Nat → Bool) (rep : Nat) : JsStr → JsStr
  | [] => []
  | c :: cs =>
    if p c then rep :: collapseRuns p rep (cs.dropWhile p)
    else c :: collapseRuns p rep cs
termination_by l => l.length
decreasing_by
  · exact Nat.lt_succ_of_le (List.dropWhile_suffix p).length_le
  · simp

/-- Hyphen test. -/
def isHy (c : Nat) : Bool := c == 45

/-- String.prototype.includes: pat occurs contiguously in the string. -/
def jsIncludes (pat : JsStr) : JsStr → Bool
  | [] => pat.isEmpty
  | c :: t => pat.isPrefixOf (c :: t) || jsIncludes pat t

/- ===================== src/lib/validation.ts ===================== -/

/-- validateSlug from src/lib/validation.ts: empty, too short, too long,
outside [a-z0-9-], or leading/trailing hyphen each yield an error. -/
def validateSlug (slug : JsStr) : Option String :=
  if slug.isEmpty then some "Slug is required"
  else if slug.length < 2 then some "Slug must be at least 2 characters"
  else if slug.length > 50 then some "Slug must not exceed 50 characters"
  else if !slug.all isSlugCp then
    some "Slug must contain only lowercase letters, numbers, and hyphens"
  else if slug.head? == some 45 || slug.getLast? == some 45 then
    some "Slug cannot start or end with a hyphen"
  else none

/-- The characters generateSlug does not strip: \w, \s and hyphen. -/
def keepCp (c : Nat) : Bool := isWordCp c || isJsWs c || isHy c

/-- generateSlug from src/lib/validation.ts: lowercase, trim, strip
characters outside \w \s and hyphen, turn whitespace runs into single
hyphens, collapse hyphen runs, strip leading/trailing hyphen runs. -/
def generateSlug (t : JsStr) : JsStr :=
  jsTrimBy isHy
    (collapseRuns isHy 45
      (collapseRuns isJsWs 45
        ((jsTrim (t.map lowerCp)).filter keepCp)))

/-- validateMetaDescription from src/lib/validation.ts. -/
def validateMetaDescription (d : JsStr) : Option String :=
  if d.isEmpty then some "Meta description is required"
  else if d.length < 20 then some "Meta description must be at least 20 characters"
  else if d.length > 160 then some "Meta description must not exceed 160 characters"
  else none

/-- Scheme characters after the first: [A-Za-z0-9+.-]. -/
def isSchemeCp (c : Nat) : Bool :=
  decide ((65 ≤ c ∧ c ≤ 90) ∨ (97 ≤ c ∧ c ≤ 122) ∨ (48 ≤ c ∧ c ≤ 57) ∨
    c = 43 ∨ c = 45 ∨ c = 46)

/-- ASCII letter. -/
def isAlphaCp (c : Nat) : Bool :=
  decide ((65 ≤ c ∧ c ≤ 90) ∨ (97 ≤ c ∧ c ≤ 122))

/-- Model of the platform URL constructor (new URL(s)) used by
validateUrl: the string parses when it starts with a scheme — an ASCII
letter followed by letters, digits, plus, minus or dot — terminated by a
colon.  The repository delegates parsing to the WHATWG URL class; this
models the acceptance condition on the absolute URLs relevant here. -/
def jsUrlParses (u : JsStr) : Bool :=
  let pre := u.takeWhile (fun c => !(c == 58))
  (match pre with
   | [] => false
   | c :: cs => isAlphaCp c && cs.all isSchemeCp) &&
  decide (pre.length < u.length)

/-- validateUrl from src/lib/validation.ts: empty is accepted (optional
field), otherwise the string must parse as a URL. -/
def validateUrl (u : JsStr) : Option String :=
  if u.isEmpty then none
  else if jsUrlParses u then none
  else some "Invalid URL format"

/-- The image extensions accepted by validateOgImage. -/
def validExtensions : List JsStr :=
  [str ".jpg", str ".jpeg", str ".png", str ".gif", str ".webp"]

/-- Whether the lowercased URL ends in one of the accepted image
extensions. -/
def hasValidExt (u : JsStr) : Bool :=
  validExtensions.any (fun e => e.isSuffixOf (u.map lowerCp))

/-- validateOgImage from src/lib/validation.ts: required, must parse as
a URL, and must end in an image extension or contain one of the two
Firebase substrings. -/
def validateOgImage (u : JsStr) : Option String :=
  if u.isEmpty then some "Featured image URL is required"
  else if (validateUrl u).isSome then some "Featured image URL must be valid"
  else if !hasValidExt u && !jsIncludes (str "firebaseapp.com") u &&
      !jsIncludes (str "firebase.google.com") u then
    some "Image URL should be a direct image file (jpg, png, gif, webp) or Firebase URL"
  else none

/-- validateHtmlContent from src/lib/validation.ts: required, and the
trimmed content must be between 10 and 1000000 characters. -/
def validateHtmlContent (h : JsStr) : Option String :=
  if h.isEmpty then some "HTML content is required"
  else if (jsTrim h).length < 10 then some "HTML content must be at least 10 characters"
  else if (jsTrim h).length > 1000000 then some "HTML content exceeds maximum size"
  else none

/-- validateEmail from src/lib/validation.ts: empty accepted, otherwise
the string must match /^[^\s@]+@[^\s@]+\.[^\s@]+$/ — a nonempty run
without whitespace or at-sign, one at-sign, then a nonempty run without
whitespace or at-sign containing an interior dot. -/
def validateEmail (e : JsStr) : Option String :=
  if e.isEmpty then none
  else
    let beforeAt := e.takeWhile (fun c => !(c == 64))
    let rest := e.drop (beforeAt.length + 1)
    if beforeAt.isEmpty ∨ beforeAt.length = e.length ∨
        beforeAt.any isJsWs ∨ rest.any (fun c => isJsWs c || c == 64) ∨
        !(rest.drop 1).dropLast.contains 46 then
      some "Invalid email format"
    else none

/-- validatePhone from src/lib/validation.ts. -/
def validatePhone (p : JsStr) : Option String :=
  if p.isEmpty then none
  else if p.length < 7 then some "Phone number must be at least 7 digits"
  else if p.length > 20 then some "Phone number must not exceed 20 characters"
  else none

/-- validateRequired from src/lib/validation.ts: empty or
whitespace-only is "required"; otherwise a value over 500 characters is
rejected. -/
def validateRequired (v : JsStr) (fieldName : String) : Option String :=
  if v.isEmpty || (jsTrim v).isEmpty then some (fieldName ++ " is required")
  else if v.length > 500 then some (fieldName ++ " must not exceed 500 characters")
  else none

/-- Lifecycle status of a page record. -/
inductive Status where
  | draft
  | published
  | archived
deriving DecidableEq

/-- The landing-page form payload (the fields validateLandingPageForm
and the store operations read). -/
structure FormData where
  title : JsStr
  businessName : JsStr
  slug : JsStr
  metaTitle : JsStr
  metaDescription : JsStr
  ogTitle : JsStr
  ogDescription : JsStr
  ogImage : JsStr
  businessCategory : JsStr
  businessLocation : JsStr
  businessPhone : Option JsStr
  businessEmail : Option JsStr
  businessWebsite : Option JsStr
  htmlContent : JsStr
  status : Option Status
deriving DecidableEq

/-- One field check contributing its error, keyed by field name. -/
def fieldErr (key : String) : Option String → List (String × String)
  | none => []
  | some e => [(key, e)]

/-- An optional field is checked only when present and nonempty (the
JavaScript truthiness guard `data.field && ...`). -/
def optFieldErr (key : String) (v : Option JsStr) (check : JsStr → Option String) :
    List (String × String) :=
  match v with
  | none => []
  | some s => if s.isEmpty then [] else fieldErr key (check s)

/-- validateLandingPageForm from src/lib/validation.ts, as the list of
(field, message) pairs in source order. -/
def validateLandingPageForm (d : FormData) : List (String × String) :=
  fieldErr "businessName" (validateRequired d.businessName "Business name") ++
  (fieldErr "slug" (validateSlug d.slug) ++
  (fieldErr "metaTitle" (validateRequired d.metaTitle "Meta title") ++
  (fieldErr "metaDescription" (validateMetaDescription d.metaDescription) ++
  (fieldErr "ogTitle" (validateRequired d.ogTitle "OG title") ++
  (fieldErr "ogDescription" (validateRequired d.ogDescription "OG description") ++
  (fieldErr "ogImage" (validateOgImage d.ogImage) ++
  (fieldErr "businessCategory" (validateRequired d.businessCategory "Business category") ++
  (fieldErr "businessLocation" (validateRequired d.businessLocation "Business location") ++
  (fieldErr "htmlContent" (validateHtmlContent d.htmlContent) ++
  (optFieldErr "businessPhone" d.businessPhone validatePhone ++
  (optFieldErr "businessEmail" d.businessEmail validateEmail ++
  optFieldErr "businessWebsite" d.businessWebsite validateUrl)))))))))))

/- ===================== src/lib/firestore.ts ===================== -/

/-- A stored landing-page record: the fields the modelled store
operations read or write.  The status is optional because the document
holds whatever the create payload carried. -/
structure Page where
  id : JsStr
  title : JsStr
  slug : JsStr
  businessName : JsStr
  businessCategory : JsStr
  htmlContent : JsStr
  status : Option Status
  isPublished : Bool
  publishedAt : Option Nat
  createdAt : Nat
  updatedAt : Nat
  createdBy : JsStr
  updatedBy : JsStr
  viewCount : Nat
  lastViewedAt : Option Nat
deriving DecidableEq

/-- The landingPages collection, in store order. -/
abbrev Store := List Page

/-- getLandingPageById: the document with the given id, or none. -/
def getLandingPageById (store : Store) (id : JsStr) : Option Page :=
  store.find? (fun p => p.id == id)

/-- getLandingPageBySlug: first document with the given slug (the query
uses limit 1). -/
def getLandingPageBySlug (store : Store) (slug : JsStr) : Option Page :=
  store.find? (fun p => p.slug == slug)

/-- isSlugTaken from src/lib/firestore.ts: looks up the first document
with the slug; a falsy (absent or empty) excludeId means any hit counts,
otherwise a hit only counts when it is a different document. -/
def isSlugTaken (store : Store) (slug : JsStr) (excludeId : Option JsStr) : Bool :=
  match store.find? (fun p => p.slug == slug) with
  | none => false
  | some d =>
    match excludeId with
    | none => true
    | some e => if e.isEmpty then true else !(d.id == e)

/-- The document written by createLandingPage: the payload fields plus
the stamps createdAt = updatedAt = now, createdBy = updatedBy = the
actor, isPublished derived from the payload status, publishedAt set
exactly when the payload status is published, counters zeroed. -/
def createdPage (d : FormData) (adminId : JsStr) (now : Nat) (newId : JsStr) : Page :=
  { id := newId
    title := d.title
    slug := d.slug
    businessName := d.businessName
    businessCategory := d.businessCategory
    htmlContent := d.htmlContent
    status := d.status
    isPublished := d.status == some Status.published
    publishedAt := if d.status == some Status.published then some now else none
    createdAt := now
    updatedAt := now
    createdBy := adminId
    updatedBy := adminId
    viewCount := 0
    lastViewedAt := none }

/-- createLandingPage: appends the new document and returns its id. -/
def createLandingPage (store : Store) (d : FormData) (adminId : JsStr)
    (now : Nat) (newId : JsStr) : Store × JsStr :=
  (store ++ [createdPage d adminId now newId], newId)

/-- A partial update payload (Partial of the page record): absent fields
are left as stored. -/
structure UpdateData where
  title : Option JsStr := none
  slug : Option JsStr := none
  businessName : Option JsStr := none
  businessCategory : Option JsStr := none
  htmlContent : Option JsStr := none
  status : Option Status := none
deriving DecidableEq

/-- Merging an update payload over a stored document (the object spread
plus the Firestore merge semantics of update). -/
def mergePage (p : Page) (d : UpdateData) : Page :=
  { p with
    title := d.title.getD p.title
    slug := d.slug.getD p.slug
    businessName := d.businessName.getD p.businessName
    businessCategory := d.businessCategory.getD p.businessCategory
    htmlContent := d.htmlContent.getD p.htmlContent
    status := match d.status with
      | some s => some s
      | none => p.status }

/-- The document after updateLandingPage: merged payload, stamped
updatedAt/updatedBy, isPublished computed from the payload status, and
publishedAt set when the payload status is published and the old
document was not published, cleared when the payload status is not
published and the old document was published, otherwise untouched. -/
def updatedPage (old : Page) (d : UpdateData) (adminId : JsStr) (now : Nat) : Page :=
  let m := mergePage old d
  { m with
    updatedAt := now
    updatedBy := adminId
    isPublished := d.status == some Status.published
    publishedAt :=
      if d.status == some Status.published && !old.isPublished then some now
      else if !(d.status == some Status.published) && old.isPublished then none
      else m.publishedAt }

/-- updateLandingPage: false and no change when the id is absent,
otherwise replaces the document and returns true. -/
def updateLandingPage (store : Store) (id : JsStr) (d : UpdateData)
    (adminId : JsStr) (now : Nat) : Bool × Store :=
  match getLandingPageById store id with
  | none => (false, store)
  | some old =>
    (true, store.map (fun p => if p.id == id then updatedPage old d adminId now else p))

/-- deleteLandingPage: false when the id is absent, otherwise removes
the document. -/
def deleteLandingPage (store : Store) (id : JsStr) : Bool × Store :=
  match getLandingPageById store id with
  | none => (false, store)
  | some _ => (true, store.filter (fun p => !(p.id == id)))

/-- Insertion step for ordering by a descending Nat key. -/
def insertByKeyDesc (key : Page → Nat) (p : Page) : List Page → List Page
  | [] => [p]
  | q :: qs =>
    if key q ≤ key p then p :: q :: qs else q :: insertByKeyDesc key p qs

/-- The store query engine ordering: by the given key, descending. -/
def sortByKeyDesc (key : Page → Nat) (l : List Page) : List Page :=
  l.foldr (insertByKeyDesc key) []

/-- The list filters of getLandingPages. -/
structure Filters where
  status : Option Status := none
  category : Option JsStr := none
  search : Option JsStr := none

/-- The free-text search applied after retrieval: case-insensitive
substring match over title, slug and businessName. -/
def matchesSearch (needle : JsStr) (p : Page) : Bool :=
  jsIncludes (needle.map lowerCp) (p.title.map lowerCp) ||
  jsIncludes (needle.map lowerCp) (p.slug.map lowerCp) ||
  jsIncludes (needle.map lowerCp) (p.businessName.map lowerCp)

/-- getLandingPages: exact-match status and category filters delegated
to the query engine, ordering by updatedAt descending, then the
client-side search filter. -/
def getLandingPages (store : Store) (f : Filters) : List Page :=
  let q := match f.status with
    | some s => store.filter (fun p => p.status == some s)
    | none => store
  let q := match f.category with
    | some c => q.filter (fun p => p.businessCategory == c)
    | none => q
  let q := sortByKeyDesc (fun p => p.updatedAt) q
  match f.search with
  | some s => q.filter (matchesSearch s)
  | none => q

/-- getPublishedLandingPages: the published records, ordered by
publishedAt descending — the sole read path of the static renderer. -/
def getPublishedLandingPages (store : Store) : List Page :=
  sortByKeyDesc (fun p => p.publishedAt.getD 0)
    (store.filter (fun p => p.status == some Status.published))

/- ===================== route handlers ===================== -/

/-- The authenticated admin recovered by getCurrentAdmin, when the
request carries a valid admin session. -/
structure Admin where
  uid : JsStr
deriving DecidableEq

/-- One appended audit entry. -/
structure AuditEntry where
  action : String
  actor : JsStr
  targetType : String
  targetId : JsStr
deriving DecidableEq

/-- The components a handler touched, in invocation order. -/
inductive Effect where
  | validator
  | storeRead
  | storeWrite
  | auditWrite
  | rebuild
deriving DecidableEq

/-- A handler outcome: HTTP status, response payload, the store and
audit log after the request, and the trace of components invoked. -/
structure RouteOut where
  status : Nat
  success : Bool
  page : Option Page := none
  pages : List Page := []
  store : Store
  audit : List AuditEntry
  effects : List Effect
deriving DecidableEq

/-- An update payload carrying only a status, as the publish route
submits. -/
def statusOnly (s : Status) : UpdateData := { status := some s }

/-- POST /api/landing-pages/[id]/publish: 401 without a session, 400 on
a non-boolean publish flag, 404 on a missing id; a no-op with the
current state when the status already matches; otherwise a status-only
update, one audit entry tagged page_published or page_unpublished, and
a fire-and-forget rebuild dispatch. -/
def publishPOST (session : Option Admin) (id : JsStr) (publishFlag : Option Bool)
    (now : Nat) (store : Store) (audit : List AuditEntry) : RouteOut :=
  match session with
  | none => { status := 401, success := false, store := store, audit := audit, effects := [] }
  | some admin =>
    match publishFlag with
    | none => { status := 400, success := false, store := store, audit := audit, effects := [] }
    | some publish =>
      match getLandingPageById store id with
      | none =>
        { status := 404, success := false, store := store, audit := audit
          effects := [Effect.storeRead] }
      | some page =>
        let newStatus := if publish then Status.published else Status.draft
        if page.status = some newStatus then
          { status := 200, success := true, page := some { page with status := some newStatus }
            store := store, audit := audit, effects := [Effect.storeRead] }
        else
          let res := updateLandingPage store id (statusOnly newStatus) admin.uid now
          if res.1 then
            { status := 200, success := true, page := some { page with status := some newStatus }
              store := res.2
              audit := audit ++ [{ action := if publish then "page_published" else "page_unpublished"
                                   actor := admin.uid, targetType := "landingPage", targetId := id }]
              effects := [Effect.storeRead, Effect.storeRead, Effect.storeWrite,
                          Effect.auditWrite, Effect.rebuild] }
          else
            { status := 400, success := false, store := res.2, audit := audit
              effects := [Effect.storeRead, Effect.storeRead] }

/-- GET /api/landing-pages: 401 without a session, otherwise the
filtered listing. -/
def listGET (session : Option Admin) (f : Filters) (store : Store)
    (audit : List AuditEntry) : RouteOut :=
  match session with
  | none => { status := 401, success := false, store := store, audit := audit, effects := [] }
  | some _ =>
    { status := 200, success := true, pages := getLandingPages store f
      store := store, audit := audit, effects := [Effect.storeRead] }

/-- POST /api/landing-pages: 401 without a session, 400 on validation
errors or a taken slug, otherwise creates the record and writes one
page_created audit entry. -/
def createPOST (session : Option Admin) (body : FormData) (newId : JsStr)
    (now : Nat) (store : Store) (audit : List AuditEntry) : RouteOut :=
  match session with
  | none => { status := 401, success := false, store := store, audit := audit, effects := [] }
  | some admin =>
    if validateLandingPageForm body ≠ [] then
      { status := 400, success := false, store := store, audit := audit
        effects := [Effect.validator] }
    else if isSlugTaken store body.slug none then
      { status := 400, success := false, store := store, audit := audit
        effects := [Effect.validator, Effect.storeRead] }
    else
      { status := 201, success := true
        store := (createLandingPage store body admin.uid now newId).1
        audit := audit ++ [{ action := "page_created", actor := admin.uid
                             targetType := "landingPage", targetId := newId }]
        effects := [Effect.validator, Effect.storeRead, Effect.storeWrite, Effect.auditWrite] }

/-- GET /api/landing-pages/[id]: 401 without a session, 404 on a
missing id, otherwise the record. -/
def readGET (session : Option Admin) (id : JsStr) (store : Store)
    (audit : List AuditEntry) : RouteOut :=
  match session with
  | none => { status := 401, success := false, store := store, audit := audit, effects := [] }
  | some _ =>
    match getLandingPageById store id with
    | none =>
      { status := 404, success := false, store := store, audit := audit
        effects := [Effect.storeRead] }
    | some p =>
      { status := 200, success := true, page := some p, store := store, audit := audit
        effects := [Effect.storeRead] }

/-- The full update payload a PUT request submits (the validated body
spread into the update). -/
def toUpdateData (b : FormData) : UpdateData :=
  { title := some b.title
    slug := some b.slug
    businessName := some b.businessName
    businessCategory := some b.businessCategory
    htmlContent := some b.htmlContent
    status := b.status }

/-- PUT /api/landing-pages/[id]: 401 without a session, 404 on a
missing id, 400 on validation errors or a slug collision against
another record, otherwise updates and writes one page_updated audit
entry. -/
def updatePUT (session : Option Admin) (id : JsStr) (body : FormData)
    (now : Nat) (store : Store) (audit : List AuditEntry) : RouteOut :=
  match session with
  | none => { status := 401, success := false, store := store, audit := audit, effects := [] }
  | some admin =>
    match getLandingPageById store id with
    | none =>
      { status := 404, success := false, store := store, audit := audit
        effects := [Effect.storeRead] }
    | some oldPage =>
      if validateLandingPageForm body ≠ [] then
        { status := 400, success := false, store := store, audit := audit
          effects := [Effect.storeRead, Effect.validator] }
      else if body.slug ≠ oldPage.slug ∧ isSlugTaken store body.slug (some id) then
        { status := 400, success := false, store := store, audit := audit
          effects := [Effect.storeRead, Effect.validator, Effect.storeRead] }
      else
        let res := updateLandingPage store id (toUpdateData body) admin.uid now
        if res.1 then
          { status := 200, success := true, store := res.2
            audit := audit ++ [{ action := "page_updated", actor := admin.uid
                                 targetType := "landingPage", targetId := id }]
            effects := [Effect.storeRead, Effect.validator, Effect.storeRead,
                        Effect.storeRead, Effect.storeWrite, Effect.auditWrite] }
        else
          { status := 400, success := false, store := res.2, audit := audit
            effects := [Effect.storeRead, Effect.validator, Effect.storeRead,
                        Effect.storeRead] }

/-- DELETE /api/landing-pages/[id]: 401 without a session, 404 on a
missing id, otherwise hard-deletes and writes one page_deleted audit
entry. -/
def deleteDELETE (session : Option Admin) (id : JsStr) (store : Store)
    (audit : List AuditEntry) : RouteOut :=
  match session with
  | none => { status := 401, success := false, store := store, audit := audit, effects := [] }
  | some admin =>
    match getLandingPageById store id with
    | none =>
      { status := 404, success := false, store := store, audit := audit
        effects := [Effect.storeRead] }
    | some _ =>
      let res := deleteLandingPage store id
      if res.1 then
        { status := 200, success := true, store := res.2
          audit := audit ++ [{ action := "page_deleted", actor := admin.uid
                               targetType := "landingPage", targetId := id }]
          effects := [Effect.storeRead, Effect.storeRead, Effect.storeWrite,
                      Effect.auditWrite] }
      else
        { status := 400, success := false, store := res.2, audit := audit
          effects := [Effect.storeRead, Effect.storeRead] }

/- ===================== src/app/sitemap.ts ===================== -/

/-- One sitemap entry; the change frequency is the literal tag and the
priority is held in tenths (0.8 becomes 8). -/
structure SitemapEntry where
  url : JsStr
  lastModified : Nat
  changeFrequency : String
  priorityTenths : Nat
deriving DecidableEq

/-- The per-record sitemap entry: site-root/slug, lastModified from the
updatedAt of the record, monthly, priority 0.8. -/
def pageEntry (siteUrl : JsStr) (p : Page) : SitemapEntry :=
  { url := siteUrl ++ str "/" ++ p.slug
    lastModified := p.updatedAt
    changeFrequency := "monthly"
    priorityTenths := 8 }

/-- The site-root sitemap entry. -/
def rootEntry (siteUrl : JsStr) (now : Nat) : SitemapEntry :=
  { url := siteUrl, lastModified := now, changeFrequency := "weekly", priorityTenths := 10 }

/-- The fixed static-page entries emitted on the success path. -/
def staticEntries (siteUrl : JsStr) (now : Nat) : List SitemapEntry :=
  [ rootEntry siteUrl now,
    { url := siteUrl ++ str "/about", lastModified := now
      changeFrequency := "monthly", priorityTenths := 7 },
    { url := siteUrl ++ str "/privacy", lastModified := now
      changeFrequency := "yearly", priorityTenths := 5 },
    { url := siteUrl ++ str "/terms", lastModified := now
      changeFrequency := "yearly", priorityTenths := 5 },
    { url := siteUrl ++ str "/plans", lastModified := now
      changeFrequency := "monthly", priorityTenths := 7 } ]

/-- The sitemap function from src/app/sitemap.ts: on a successful fetch
of the published records, the static entries followed by one entry per
record; when the fetch throws, the catch branch returns the single
site-root entry. -/
def sitemap (siteUrl : JsStr) (now : Nat) (fetched : Except Unit (List Page)) :
    List SitemapEntry :=
  match fetched with
  | Except.ok pages => staticEntries siteUrl now ++ pages.map (pageEntry siteUrl)
  | Except.error _ => [rootEntry siteUrl now]

/- ============ spec-side notions and concrete fixtures ============ -/

/-- The record invariant of the spec: the derived flag equals the
status test, and publishedAt is non-null exactly on published
records. -/
def pageInv (p : Page) : Prop :=
  (p.isPublished = true ↔ p.status = some Status.published) ∧
  (p.publishedAt ≠ none ↔ p.status = some Status.published)

/-- Whether a run of two hyphens occurs; generateSlug output satisfies
this after the hyphen runs are collapsed. -/
def noDub : JsStr → Bool
  | [] => true
  | [_] => true
  | a :: b :: cs => !(isHy a && isHy b) && noDub (b :: cs)

/-- First position of pat in the string, as the remainder after it, or
none. -/
def dropThrough (pat : JsStr) : JsStr → Option JsStr
  | [] => if pat.isEmpty then some [] else none
  | c :: t =>
    if pat.isPrefixOf (c :: t) then some ((c :: t).drop pat.length)
    else dropThrough pat t

/-- Modelled from the spec: the hosting domain an image URL belongs to
(the claim checks membership in an allow-listed hosting domain, which
the repository source does not compute) — the host component of the
URL: the authority after the scheme separator, with userinfo and port
removed. -/
def hostOf (u : JsStr) : JsStr :=
  match dropThrough (str "://") u with
  | none => []
  | some rest =>
    let auth := rest.takeWhile (fun c => !(c == 47 || c == 63 || c == 35))
    let afterUser := (auth.reverse.takeWhile (fun c => !(c == 64))).reverse
    afterUser.takeWhile (fun c => !(c == 58))

/-- Modelled from the spec: a host belongs to the allow-listed hosting
domains when it is one of the two Firebase hosting domains or a
subdomain of one. -/
def belongsToAllowedHost (h : JsStr) : Bool :=
  h == str "firebaseapp.com" || (str ".firebaseapp.com").isSuffixOf h ||
  h == str "firebase.google.com" || (str ".firebase.google.com").isSuffixOf h

/-- A URL whose host is not allow-listed but whose query string contains
the substring firebaseapp.com. -/
def c5url : JsStr := str "https://evil.com/pic?ref=firebaseapp.com"

/-- An HTML body of exactly 10 characters, of which the last 8 are
spaces. -/
def c6bad : JsStr := str "ab        "

/-- A published record satisfying the record invariant. -/
def c1page : Page :=
  { id := str "p1"
    title := str "T"
    slug := str "cafe-noon"
    businessName := str "Cafe Noon"
    businessCategory := str "Food"
    htmlContent := str "<html><body>Welcome</body></html>"
    status := some Status.published
    isPublished := true
    publishedAt := some 5
    createdAt := 1
    updatedAt := 2
    createdBy := str "a1"
    updatedBy := str "a1"
    viewCount := 0
    lastViewedAt := none }

/-- The record c1page after an update whose payload carries no status
field. -/
def c1bad : Page := updatedPage c1page {} (str "a2") 9

/-- Form data whose six required text fields are 501 characters of the
letter a. -/
def c10form : FormData :=
  { title := str "T"
    businessName := List.replicate 501 97
    slug := str "ok"
    metaTitle := List.replicate 501 97
    metaDescription := str "A cozy cafe in town serving coffee."
    ogTitle := List.replicate 501 97
    ogDescription := List.replicate 501 97
    ogImage := str "https://example.com/img.jpg"
    businessCategory := List.replicate 501 97
    businessLocation := List.replicate 501 97
    businessPhone := none
    businessEmail := none
    businessWebsite := none
    htmlContent := str "<html><body>Welcome</body></html>"
    status := some Status.draft }

/- ===================== theorems ===================== -/

theorem jsTrim_nil : jsTrim [] = [] := rfl

/-- C4: validateSlug returns no error exactly for the strings that
match the class [a-z0-9-] throughout (hence are nonempty), have length
between 2 and 50 inclusive, and neither start nor end with a hyphen;
every other string gets an error. -/
theorem kash_c4_validateSlug_spec (s : JsStr) :
    validateSlug s = none ↔
      (s ≠ [] ∧ (∀ c ∈ s, isSlugCp c = true) ∧ 2 ≤ s.length ∧ s.length ≤ 50 ∧
        s.head? ≠ some 45 ∧ s.getLast? ≠ some 45) := by
  unfold validateSlug
  split_ifs with h1 h2 h3 h4 h5
  · simp_all [List.isEmpty_iff]
  · simp_all
  · simp_all
  · simp_all [List.all_eq_true]
  · simp_all
    tauto
  · simp_all [List.isEmpty_iff, List.all_eq_true]

/-- C6 (amended): validateHtmlContent accepts an HTML body exactly when
the length of its whitespace-trimmed text lies in [10, 1000000]. -/
theorem kash_c6_html_amended (h : JsStr) :
    validateHtmlContent h = none ↔
      10 ≤ (jsTrim h).length ∧ (jsTrim h).length ≤ 1000000 := by
  unfold validateHtmlContent
  split_ifs with h1 h2 h3 <;> simp_all [List.isEmpty_iff, jsTrim_nil]

/-- C6 counterexample: a body of exactly 10 characters (inside the
claimed accepted window) that validateHtmlContent rejects, because the
code measures the trimmed length. -/
theorem kash_c6_trim_counterexample :
    validateHtmlContent c6bad ≠ none ∧ 10 ≤ c6bad.length ∧ c6bad.length ≤ 1000000 := by
  decide

/-- C3 counterexample: on a failing fetch the sitemap emits a single
site-root entry, not the fixed set of five static-page entries the
claim describes. -/
theorem kash_c3_fallback_counterexample :
    sitemap (str "https://kashpages.in") 0 (Except.error ()) ≠
      staticEntries (str "https://kashpages.in") 0 ∧
    (sitemap (str "https://kashpages.in") 0 (Except.error ())).length = 1 ∧
    (staticEntries (str "https://kashpages.in") 0).length = 5 :=
  ⟨by decide, rfl, rfl⟩

/-- C3 (amended): when the query fails, sitemap generation emits
exactly one entry, the site root, instead of failing the build; on
success it emits the five static entries plus one entry per fetched
record with url = site-root/slug, lastModified = the updatedAt of the
record, and fixed change-frequency and priority. -/
theorem kash_c3_sitemap_amended (siteUrl : JsStr) (now : Nat) (pages : List Page) :
    sitemap siteUrl now (Except.error ()) = [rootEntry siteUrl now] ∧
    sitemap siteUrl now (Except.ok pages) =
      staticEntries siteUrl now ++ pages.map (pageEntry siteUrl) ∧
    ∀ p ∈ pages, pageEntry siteUrl p =
      { url := siteUrl ++ str "/" ++ p.slug
        lastModified := p.updatedAt
        changeFrequency := "monthly"
        priorityTenths := 8 } :=
  ⟨rfl, rfl, fun _ _ => rfl⟩

theorem kash_c3_witness :
    sitemap (str "https://kashpages.in") 7 (Except.error ()) =
      [rootEntry (str "https://kashpages.in") 7] ∧
    sitemap (str "https://kashpages.in") 7 (Except.ok [c1page]) =
      staticEntries (str "https://kashpages.in") 7 ++
        [c1page].map (pageEntry (str "https://kashpages.in")) ∧
    ∀ p ∈ [c1page], pageEntry (str "https://kashpages.in") p =
      { url := str "https://kashpages.in" ++ str "/" ++ p.slug
        lastModified := p.updatedAt
        changeFrequency := "monthly"
        priorityTenths := 8 } :=
  kash_c3_sitemap_amended (str "https://kashpages.in") 7 [c1page]

/-- C9: each admin-surface handler answers a request without a valid
admin session with a 401, leaves the store and audit log unchanged, and
invokes no component at all (in particular neither the validator nor
the store adapter). -/
theorem kash_c9_unauthenticated_short_circuit :
    (∀ f store audit, listGET none f store audit =
      { status := 401, success := false, store := store, audit := audit, effects := [] }) ∧
    (∀ body newId now store audit, createPOST none body newId now store audit =
      { status := 401, success := false, store := store, audit := audit, effects := [] }) ∧
    (∀ id store audit, readGET none id store audit =
      { status := 401, success := false, store := store, audit := audit, effects := [] }) ∧
    (∀ id body now store audit, updatePUT none id body now store audit =
      { status := 401, success := false, store := store, audit := audit, effects := [] }) ∧
    (∀ id store audit, deleteDELETE none id store audit =
      { status := 401, success := false, store := store, audit := audit, effects := [] }) ∧
    (∀ id pf now store audit, publishPOST none id pf now store audit =
      { status := 401, success := false, store := store, audit := audit, effects := [] }) := by
  refine ⟨?_, ?_, ?_, ?_, ?_, ?_⟩ <;> intros <;> rfl

/-- C1: Create always establishes the publishedAt/status invariant, but
Update does not preserve it: evaluated at a published record satisfying
the invariant and an update payload that carries no status field, the
code reports success and stores a record whose status is still
published while publishedAt has been cleared and isPublished set to
false — against the claim (and the comments in the code) that
publishedAt is cleared only on a transition out of published. -/
theorem kash_c1_partial_update_breaks_invariant :
    (∀ d adminId now newId, pageInv (createdPage d adminId now newId)) ∧
    pageInv c1page ∧
    (updateLandingPage [c1page] (str "p1") {} (str "a2") 9).1 = true ∧
    (updateLandingPage [c1page] (str "p1") {} (str "a2") 9).2 = [c1bad] ∧
    c1bad.status = some Status.published ∧
    c1bad.publishedAt = none ∧
    c1bad.isPublished = false := by
  refine ⟨?_, by simp [pageInv, c1page], by decide, by decide, by decide,
    by decide, by decide⟩
  intro d adminId now newId
  unfold pageInv createdPage
  constructor
  · simp
  · by_cases hs : d.status = some Status.published
    · simp [hs]
    · simp [hs]

/-- C2: toggling publish on an already-published record is a no-op:
the store and audit log are unchanged, no rebuild is dispatched, only
the lookup ran, and the response is a success carrying the record as
stored. -/
theorem kash_c2_toggle_publish_idempotent
    (admin : Admin) (id : JsStr) (now : Nat) (store : Store)
    (audit : List AuditEntry) (page : Page)
    (hfind : getLandingPageById store id = some page)
    (hpub : page.status = some Status.published) :
    publishPOST (some admin) id (some true) now store audit =
      { status := 200, success := true, page := some page, store := store,
        audit := audit, effects := [Effect.storeRead] } := by
  have hpage : ({ page with status := some Status.published } : Page) = page := by
    cases page
    simp_all
  unfold publishPOST
  rw [hfind]
  simp [hpub, hpage]

theorem kash_c2_witness :
    publishPOST (some { uid := str "a1" }) (str "p1") (some true) 9 [c1page] [] =
      { status := 200, success := true, page := some c1page, store := [c1page],
        audit := [], effects := [Effect.storeRead] } :=
  kash_c2_toggle_publish_idempotent { uid := str "a1" } (str "p1") 9 [c1page] []
    c1page (by decide) (by decide)

/-- C5 counterexample: a URL that parses, has no image extension, and
whose host is not an allow-listed hosting domain, yet validateOgImage
accepts it, because the code only looks for the Firebase substrings
anywhere in the URL string. -/
theorem kash_c5_allowlist_counterexample :
    validateOgImage c5url = none ∧
    jsUrlParses c5url = true ∧
    hasValidExt c5url = false ∧
    belongsToAllowedHost (hostOf c5url) = false := by
  decide

/-- C5 (amended): validateOgImage accepts a non-empty image URL exactly
when it parses as a URL and either ends case-insensitively in a known
image extension or contains one of the substrings firebaseapp.com or
firebase.google.com anywhere in the URL string. -/
theorem kash_c5_ogimage_amended (u : JsStr) :
    validateOgImage u = none ↔
      (u ≠ [] ∧ jsUrlParses u = true ∧
        (hasValidExt u = true ∨ jsIncludes (str "firebaseapp.com") u = true ∨
         jsIncludes (str "firebase.google.com") u = true)) := by
  unfold validateOgImage validateUrl
  by_cases hu : u.isEmpty
  · simp_all [List.isEmpty_iff]
  · by_cases hp : jsUrlParses u
    · cases hA : hasValidExt u <;>
        cases hB : jsIncludes (str "firebaseapp.com") u <;>
        cases hC : jsIncludes (str "firebase.google.com") u <;>
        simp_all [List.isEmpty_iff]
    · simp_all [List.isEmpty_iff]

/-- C7: with exactly one record holding a slug, isSlugTaken is false
when that record is excluded, true with no exclusion or the exclusion
of a different record, and false for any slug no record holds. -/
theorem kash_c7_isSlugTaken_spec
    (store : Store) (s : JsStr) (r : Page)
    (hmem : r ∈ store) (hslug : r.slug = s)
    (huniq : ∀ q ∈ store, q.slug = s → q = r)
    (hid : r.id ≠ []) :
    isSlugTaken store s (some r.id) = false ∧
    isSlugTaken store s none = true ∧
    (∀ e, e ≠ r.id → isSlugTaken store s (some e) = true) ∧
    (∀ s2, (∀ q ∈ store, q.slug ≠ s2) → ∀ ex, isSlugTaken store s2 ex = false) := by
  have hfind : store.find? (fun p => p.slug == s) ≠ none := by
    intro hn
    have hnot := List.find?_eq_none.mp hn r hmem
    simp only [beq_iff_eq] at hnot
    exact hnot hslug
  obtain ⟨d, hd⟩ := Option.ne_none_iff_exists'.mp hfind
  have hdr : d = r :=
    huniq d (List.mem_of_find?_eq_some hd) (by simpa using List.find?_some hd)
  subst hdr
  refine ⟨?_, ?_, ?_, ?_⟩
  · unfold isSlugTaken
    rw [hd]
    simp [List.isEmpty_iff, hid]
  · unfold isSlugTaken
    rw [hd]
  · intro e he
    unfold isSlugTaken
    rw [hd]
    by_cases hee : e.isEmpty
    · simp [hee]
    · simp [hee]
      exact fun hcontra => he hcontra.symm
  · intro s2 hs2 ex
    unfold isSlugTaken
    cases h2 : store.find? (fun p => p.slug == s2) with
    | none => rfl
    | some d2 =>
      exact absurd (by simpa using List.find?_some h2)
        (hs2 d2 (List.mem_of_find?_eq_some h2))

theorem kash_c7_witness :
    isSlugTaken [c1page] (str "cafe-noon") (some (str "p1")) = false ∧
    isSlugTaken [c1page] (str "cafe-noon") none = true ∧
    (∀ e, e ≠ str "p1" → isSlugTaken [c1page] (str "cafe-noon") (some e) = true) ∧
    (∀ s2, (∀ q ∈ [c1page], q.slug ≠ s2) →
      ∀ ex, isSlugTaken [c1page] s2 ex = false) :=
  kash_c7_isSlugTaken_spec [c1page] (str "cafe-noon") c1page (by decide) (by decide)
    (by decide) (by decide)

theorem lookup_fieldErr_ne (k k2 : String) (o : Option String)
    (rest : List (String × String)) (h : (k == k2) = false) :
    List.lookup k (fieldErr k2 o ++ rest) = List.lookup k rest := by
  cases o <;> simp [fieldErr, List.lookup, h]

theorem lookup_fieldErr_hit (k e : String) (rest : List (String × String)) :
    List.lookup k (fieldErr k (some e) ++ rest) = some e := by
  simp [fieldErr, List.lookup]

theorem validateRequired_long (v : JsStr) (name : String)
    (h1 : jsTrim v ≠ []) (h2 : 500 < v.length) :
    validateRequired v name = some (name ++ " must not exceed 500 characters") := by
  have hv : v ≠ [] := by
    intro hnil
    exact h1 (hnil ▸ jsTrim_nil)
  have hc1 : ¬(v.isEmpty || (jsTrim v).isEmpty) = true := by
    simp [List.isEmpty_iff, hv, h1]
  unfold validateRequired
  rw [if_neg hc1, if_pos h2]

/-- C10: each of the six required text fields checked through
validateRequired is also subject to a 500-character maximum: a value
that is non-empty after trimming but longer than 500 characters makes
validateLandingPageForm return an error keyed by that field. -/
theorem kash_c10_required_fields_max500 (d : FormData) :
    (jsTrim d.businessName ≠ [] → 500 < d.businessName.length →
      List.lookup "businessName" (validateLandingPageForm d) =
        some "Business name must not exceed 500 characters") ∧
    (jsTrim d.metaTitle ≠ [] → 500 < d.metaTitle.length →
      List.lookup "metaTitle" (validateLandingPageForm d) =
        some "Meta title must not exceed 500 characters") ∧
    (jsTrim d.ogTitle ≠ [] → 500 < d.ogTitle.length →
      List.lookup "ogTitle" (validateLandingPageForm d) =
        some "OG title must not exceed 500 characters") ∧
    (jsTrim d.ogDescription ≠ [] → 500 < d.ogDescription.length →
      List.lookup "ogDescription" (validateLandingPageForm d) =
        some "OG description must not exceed 500 characters") ∧
    (jsTrim d.businessCategory ≠ [] → 500 < d.businessCategory.length →
      List.lookup "businessCategory" (validateLandingPageForm d) =
        some "Business category must not exceed 500 characters") ∧
    (jsTrim d.businessLocation ≠ [] → 500 < d.businessLocation.length →
      List.lookup "businessLocation" (validateLandingPageForm d) =
        some "Business location must not exceed 500 characters") := by
  refine ⟨?_, ?_, ?_, ?_, ?_, ?_⟩ <;> intro h1 h2 <;> unfold validateLandingPageForm
  · rw [validateRequired_long d.businessName "Business name" h1 h2]
    exact lookup_fieldErr_hit _ _ _
  · rw [lookup_fieldErr_ne _ _ _ _ (by decide), lookup_fieldErr_ne _ _ _ _ (by decide),
      validateRequired_long d.metaTitle "Meta title" h1 h2]
    exact lookup_fieldErr_hit _ _ _
  · rw [lookup_fieldErr_ne _ _ _ _ (by decide), lookup_fieldErr_ne _ _ _ _ (by decide),
      lookup_fieldErr_ne _ _ _ _ (by decide), lookup_fieldErr_ne _ _ _ _ (by decide),
      validateRequired_long d.ogTitle "OG title" h1 h2]
    exact lookup_fieldErr_hit _ _ _
  · rw [lookup_fieldErr_ne _ _ _ _ (by decide), lookup_fieldErr_ne _ _ _ _ (by decide),
      lookup_fieldErr_ne _ _ _ _ (by decide), lookup_fieldErr_ne _ _ _ _ (by decide),
      lookup_fieldErr_ne _ _ _ _ (by decide),
      validateRequired_long d.ogDescription "OG description" h1 h2]
    exact lookup_fieldErr_hit _ _ _
  · rw [lookup_fieldErr_ne _ _ _ _ (by decide), lookup_fieldErr_ne _ _ _ _ (by decide),
      lookup_fieldErr_ne _ _ _ _ (by decide), lookup_fieldErr_ne _ _ _ _ (by decide),
      lookup_fieldErr_ne _ _ _ _ (by decide), lookup_fieldErr_ne _ _ _ _ (by decide),
      lookup_fieldErr_ne _ _ _ _ (by decide),
      validateRequired_long d.businessCategory "Business category" h1 h2]
    exact lookup_fieldErr_hit _ _ _
  · rw [lookup_fieldErr_ne _ _ _ _ (by decide), lookup_fieldErr_ne _ _ _ _ (by decide),
      lookup_fieldErr_ne _ _ _ _ (by decide), lookup_fieldErr_ne _ _ _ _ (by decide),
      lookup_fieldErr_ne _ _ _ _ (by decide), lookup_fieldErr_ne _ _ _ _ (by decide),
      lookup_fieldErr_ne _ _ _ _ (by decide), lookup_fieldErr_ne _ _ _ _ (by decide),
      validateRequired_long d.businessLocation "Business location" h1 h2]
    exact lookup_fieldErr_hit _ _ _

set_option maxRecDepth 4000 in
theorem kash_c10_witness :
    List.lookup "businessName" (validateLandingPageForm c10form) =
      some "Business name must not exceed 500 characters" ∧
    List.lookup "metaTitle" (validateLandingPageForm c10form) =
      some "Meta title must not exceed 500 characters" ∧
    List.lookup "ogTitle" (validateLandingPageForm c10form) =
      some "OG title must not exceed 500 characters" ∧
    List.lookup "ogDescription" (validateLandingPageForm c10form) =
      some "OG description must not exceed 500 characters" ∧
    List.lookup "businessCategory" (validateLandingPageForm c10form) =
      some "Business category must not exceed 500 characters" ∧
    List.lookup "businessLocation" (validateLandingPageForm c10form) =
      some "Business location must not exceed 500 characters" := by
  obtain ⟨w1, w2, w3, w4, w5, w6⟩ := kash_c10_required_fields_max500 c10form
  exact ⟨w1 (by decide) (by decide), w2 (by decide) (by decide),
    w3 (by decide) (by decide), w4 (by decide) (by decide),
    w5 (by decide) (by decide), w6 (by decide) (by decide)⟩

/- Helper lemmas about the string pipeline, for the idempotence of
generateSlug. -/

theorem dropTrailing_cons (p : Nat → Bool) (c : Nat) (cs : JsStr) :
    dropTrailing p (c :: cs) =
      match dropTrailing p cs with
      | [] => if p c then [] else [c]
      | ds => c :: ds := rfl

theorem dropTrailing_mem {p : Nat → Bool} {l : JsStr} {a : Nat}
    (h : a ∈ dropTrailing p l) : a ∈ l := by
  induction l with
  | nil => simp [dropTrailing] at h
  | cons c cs ih =>
    rw [dropTrailing_cons] at h
    cases hd : dropTrailing p cs with
    | nil =>
      rw [hd] at h
      by_cases hpc : p c = true
      · rw [if_pos hpc] at h
        simp at h
      · rw [if_neg hpc] at h
        simp at h
        rw [h]
        exact List.mem_cons_self _ _
    | cons d ds =>
      rw [hd] at h
      rcases List.mem_cons.mp h with rfl | h2
      · exact List.mem_cons_self _ _
      · exact List.mem_cons_of_mem _ (ih (hd ▸ h2))

theorem dropTrailing_head {p : Nat → Bool} {l : JsStr} {a : Nat}
    (h : (dropTrailing p l).head? = some a) : l.head? = some a := by
  cases l with
  | nil => simp [dropTrailing] at h
  | cons c cs =>
    rw [dropTrailing_cons] at h
    cases hd : dropTrailing p cs with
    | nil =>
      rw [hd] at h
      by_cases hpc : p c = true
      · rw [if_pos hpc] at h
        simp at h
      · rw [if_neg hpc] at h
        simp at h
        simp [h]
    | cons d ds =>
      rw [hd] at h
      simp at h
      simp [h]

theorem dropTrailing_idem (p : Nat → Bool) (l : JsStr) :
    dropTrailing p (dropTrailing p l) = dropTrailing p l := by
  induction l with
  | nil => rfl
  | cons c cs ih =>
    cases hd : dropTrailing p cs with
    | nil =>
      rw [dropTrailing_cons, hd]
      by_cases hpc : p c = true
      · rw [if_pos hpc]
        rfl
      · rw [if_neg hpc, dropTrailing_cons]
        simp [hpc, dropTrailing]
    | cons d ds =>
      rw [hd] at ih
      rw [dropTrailing_cons, hd, dropTrailing_cons, ih]

theorem dropTrailing_eq_self {p : Nat → Bool} {l : JsStr}
    (h : ∀ a ∈ l, p a = false) : dropTrailing p l = l := by
  induction l with
  | nil => rfl
  | cons c cs ih =>
    rw [dropTrailing, ih (fun a ha => h a (List.mem_cons_of_mem _ ha))]
    cases cs with
    | nil => simp [h c (List.mem_cons_self _ _)]
    | cons d ds => rfl

theorem dropWhile_eq_self_of_forall {p : Nat → Bool} {l : JsStr}
    (h : ∀ a ∈ l, p a = false) : l.dropWhile p = l := by
  cases l with
  | nil => rfl
  | cons c cs => simp [List.dropWhile, h c (List.mem_cons_self _ _)]

theorem dropWhile_eq_self_of_head {p : Nat → Bool} {l : JsStr}
    (h : ∀ a, l.head? = some a → p a = false) : l.dropWhile p = l := by
  cases l with
  | nil => rfl
  | cons c cs => simp [List.dropWhile, h c rfl]

theorem dropWhile_head_not {p : Nat → Bool} {l : JsStr} {a : Nat}
    (h : (l.dropWhile p).head? = some a) : p a = false := by
  induction l with
  | nil => simp [List.dropWhile] at h
  | cons c cs ih =>
    rw [List.dropWhile] at h
    cases hpc : p c with
    | true => exact ih (by rw [hpc] at h; exact h)
    | false =>
      rw [hpc] at h
      simp at h
      exact h ▸ hpc

theorem map_eq_self_of {f : Nat → Nat} {l : JsStr}
    (h : ∀ a ∈ l, f a = a) : l.map f = l := by
  induction l with
  | nil => rfl
  | cons c cs ih =>
    simp [h c (List.mem_cons_self _ _),
      ih (fun a ha => h a (List.mem_cons_of_mem _ ha))]

theorem noDub_cons_cons (a b : Nat) (bs : JsStr) :
    noDub (a :: b :: bs) = (!(isHy a && isHy b) && noDub (b :: bs)) := rfl

theorem noDub_tail {a : Nat} {l : JsStr} (h : noDub (a :: l) = true) :
    noDub l = true := by
  cases l with
  | nil => rfl
  | cons b bs =>
    rw [noDub_cons_cons] at h
    simp at h
    exact h.2

theorem noDub_head {a b : Nat} {l : JsStr} (h : noDub (a :: l) = true)
    (hb : l.head? = some b) : (isHy a && isHy b) = false := by
  cases l with
  | nil => simp at hb
  | cons c cs =>
    simp at hb
    subst hb
    rw [noDub_cons_cons] at h
    simp at h
    rcases h.1 with h1 | h1 <;> simp [h1]

theorem noDub_cons_of {a : Nat} {l : JsStr} (h1 : noDub l = true)
    (h2 : ∀ b, l.head? = some b → (isHy a && isHy b) = false) :
    noDub (a :: l) = true := by
  cases l with
  | nil => rfl
  | cons c cs =>
    rw [noDub_cons_cons]
    simp [h2 c rfl, h1]

theorem collapseRuns_head (p : Nat → Bool) (rep : Nat) (l : JsStr) :
    (collapseRuns p rep l).head? = l.head?.map (fun c => if p c then rep else c) := by
  cases l with
  | nil =>
    rw [collapseRuns]
    rfl
  | cons c cs =>
    rw [collapseRuns]
    by_cases hpc : p c = true
    · simp [hpc]
    · simp [hpc]

theorem mem_collapseRuns (p : Nat → Bool) (rep : Nat) (l : JsStr) :
    ∀ a ∈ collapseRuns p rep l, a = rep ∨ (a ∈ l ∧ p a = false) := by
  induction l using collapseRuns.induct p rep with
  | case1 => simp [collapseRuns]
  | case2 c cs hc ih =>
    intro a ha
    rw [collapseRuns, if_pos hc] at ha
    rcases List.mem_cons.mp ha with rfl | ha2
    · exact Or.inl rfl
    · rcases ih a ha2 with h | ⟨hmem, hp⟩
      · exact Or.inl h
      · exact Or.inr ⟨List.mem_cons_of_mem _ ((List.dropWhile_suffix p).subset hmem), hp⟩
  | case3 c cs hc ih =>
    intro a ha
    rw [collapseRuns, if_neg hc] at ha
    rcases List.mem_cons.mp ha with rfl | ha2
    · exact Or.inr ⟨List.mem_cons_self _ _, by simpa using hc⟩
    · rcases ih a ha2 with h | ⟨hmem, hp⟩
      · exact Or.inl h
      · exact Or.inr ⟨List.mem_cons_of_mem _ hmem, hp⟩

theorem collapseRuns_eq_self {p : Nat → Bool} {rep : Nat} {l : JsStr}
    (h : ∀ a ∈ l, p a = false) : collapseRuns p rep l = l := by
  induction l with
  | nil => rw [collapseRuns]
  | cons c cs ih =>
    have hc : p c = false := h c (List.mem_cons_self _ _)
    rw [collapseRuns, if_neg (by simp [hc]),
      ih (fun a ha => h a (List.mem_cons_of_mem _ ha))]

theorem noDub_collapseHy (l : JsStr) : noDub (collapseRuns isHy 45 l) = true := by
  induction l using collapseRuns.induct isHy 45 with
  | case1 =>
    rw [collapseRuns]
    rfl
  | case2 c cs hc ih =>
    rw [collapseRuns, if_pos hc]
    refine noDub_cons_of ih ?_
    intro b hb
    rw [collapseRuns_head] at hb
    cases hh : (cs.dropWhile isHy).head? with
    | none =>
      rw [hh] at hb
      simp at hb
    | some d =>
      rw [hh] at hb
      have hd : isHy d = false := dropWhile_head_not hh
      simp [hd] at hb
      subst hb
      simp [hd]
  | case3 c cs hc ih =>
    rw [collapseRuns, if_neg hc]
    refine noDub_cons_of ih ?_
    intro b hb
    have hcf : isHy c = false := by simpa using hc
    simp [hcf]

theorem noDub_dropWhile {p : Nat → Bool} {l : JsStr} (h : noDub l = true) :
    noDub (l.dropWhile p) = true := by
  induction l with
  | nil => exact h
  | cons c cs ih =>
    by_cases hpc : p c = true
    · rw [List.dropWhile_cons_of_pos hpc]
      exact ih (noDub_tail h)
    · rw [List.dropWhile_cons_of_neg hpc]
      exact h

theorem noDub_dropTrailing {p : Nat → Bool} {l : JsStr} (h : noDub l = true) :
    noDub (dropTrailing p l) = true := by
  induction l with
  | nil => rfl
  | cons c cs ih =>
    rw [dropTrailing_cons]
    cases hd : dropTrailing p cs with
    | nil =>
      by_cases hpc : p c = true
      · rw [if_pos hpc]
        rfl
      · rw [if_neg hpc]
        rfl
    | cons d ds =>
      have ih2 := ih (noDub_tail h)
      rw [hd] at ih2
      refine noDub_cons_of ih2 ?_
      intro b hb
      simp at hb
      have hhead : cs.head? = some d := dropTrailing_head (by rw [hd]; rfl)
      exact hb ▸ noDub_head h hhead

theorem collapseRuns_isHy_eq_self {l : JsStr} (h : noDub l = true) :
    collapseRuns isHy 45 l = l := by
  induction l with
  | nil => rw [collapseRuns]
  | cons c cs ih =>
    by_cases hc : isHy c = true
    · have hc45 : c = 45 := by simpa [isHy] using hc
      rw [collapseRuns, if_pos hc]
      cases cs with
      | nil => simp [hc45, collapseRuns, List.dropWhile]
      | cons d ds =>
        have hd : isHy d = false := by
          simpa [hc] using noDub_head h (l := d :: ds) (b := d) rfl
        have hdw : (d :: ds).dropWhile isHy = d :: ds :=
          List.dropWhile_cons_of_neg (by simp [hd])
        rw [hdw, ih (noDub_tail h), hc45]
    · rw [collapseRuns, if_neg hc, ih (noDub_tail h)]

theorem generateSlug_chars (t : JsStr) :
    ∀ a ∈ generateSlug t, isJsWs a = false ∧ keepCp a = true ∧ lowerCp a = a := by
  intro a ha
  have h1 : a ∈ collapseRuns isHy 45 (collapseRuns isJsWs 45
      ((jsTrim (t.map lowerCp)).filter keepCp)) :=
    (List.dropWhile_suffix isHy).subset (dropTrailing_mem ha)
  rcases mem_collapseRuns isHy 45 _ a h1 with rfl | ⟨h2, hnh⟩
  · exact ⟨by decide, by decide, by decide⟩
  · rcases mem_collapseRuns isJsWs 45 _ a h2 with rfl | ⟨h3, hws⟩
    · exact ⟨by decide, by decide, by decide⟩
    · have hkeep : keepCp a = true := List.of_mem_filter h3
      have h4 : a ∈ jsTrim (t.map lowerCp) := List.mem_of_mem_filter h3
      have h5 : a ∈ t.map lowerCp :=
        (List.dropWhile_suffix isJsWs).subset (dropTrailing_mem h4)
      obtain ⟨x, _, rfl⟩ := List.mem_map.mp h5
      have hfix : lowerCp (lowerCp x) = lowerCp x := by
        unfold lowerCp
        split_ifs <;> omega
      exact ⟨hws, hkeep, hfix⟩

/-- C8: generateSlug is idempotent — applied to its own output it
returns the output unchanged, since that output contains no uppercase
letters, no whitespace, no stripped characters, no doubled hyphens and
no leading or trailing hyphen. -/
theorem kash_c8_generateSlug_idem (t : JsStr) :
    generateSlug (generateSlug t) = generateSlug t := by
  have hch := generateSlug_chars t
  have hws : ∀ a ∈ generateSlug t, isJsWs a = false := fun a ha => (hch a ha).1
  have hnd : noDub (generateSlug t) = true :=
    noDub_dropTrailing (noDub_dropWhile (noDub_collapseHy _))
  have hhd : ∀ a, (generateSlug t).head? = some a → isHy a = false :=
    fun a ha => dropWhile_head_not (dropTrailing_head ha)
  have s1 : (generateSlug t).map lowerCp = generateSlug t :=
    map_eq_self_of (fun a ha => (hch a ha).2.2)
  have s2 : jsTrim (generateSlug t) = generateSlug t := by
    unfold jsTrim jsTrimBy
    rw [dropWhile_eq_self_of_forall hws, dropTrailing_eq_self hws]
  have s3 : (generateSlug t).filter keepCp = generateSlug t :=
    List.filter_eq_self.mpr (fun a ha => (hch a ha).2.1)
  have s4 : collapseRuns isJsWs 45 (generateSlug t) = generateSlug t :=
    collapseRuns_eq_self hws
  have s5 : collapseRuns isHy 45 (generateSlug t) = generateSlug t :=
    collapseRuns_isHy_eq_self hnd
  have s6 : jsTrimBy isHy (generateSlug t) = generateSlug t := by
    unfold jsTrimBy
    rw [dropWhile_eq_self_of_head hhd]
    exact dropTrailing_idem isHy _
  calc generateSlug (generateSlug t)
      = jsTrimBy isHy (collapseRuns isHy 45 (collapseRuns isJsWs 45
          ((jsTrim ((generateSlug t).map lowerCp)).filter keepCp))) := rfl
    _ = generateSlug t := by rw [s1, s2, s3, s4, s5, s6]

end KP
